import Mathlib

/-!
Verification of the coupon-scraper traversal engine (`src/main.py`).

The Python source is shallowly embedded: the pure text-cleaning helpers
(`clean_title_text`, `clean_expiry_date`, including a faithful model of the
CPython `strptime`/`strftime` machinery for the eight date formats the code
uses), the per-card reveal traversal of `scrape_coupons` (modelled as a pure
step function over an explicit shop state, with the non-deterministic browser
environment supplied as per-card event records), the per-shop enumeration
loop, the catalog pager, and the persistence-side duplicate filtering of
`save_to_supabase_stable`.
-/

namespace Couponly

/-! ### Python string primitives -/

/-- Code points CPython treats as whitespace (`Py_UNICODE_ISSPACE`): the set
matched by the regex class `\s` on `str` and stripped by `str.strip()`. -/
def pySpaceCodes : List Nat :=
  [0x9, 0xa, 0xb, 0xc, 0xd, 0x1c, 0x1d, 0x1e, 0x1f, 0x20, 0x85, 0xa0, 0x1680,
   0x2000, 0x2001, 0x2002, 0x2003, 0x2004, 0x2005, 0x2006, 0x2007, 0x2008,
   0x2009, 0x200a, 0x2028, 0x2029, 0x202f, 0x205f, 0x3000]

/-- Python whitespace test for a single character. -/
def isPySpace (c : Char) : Bool := pySpaceCodes.contains c.toNat

/-- Python `str.strip()` on a character list: drop Python whitespace at both ends. -/
def pyStripList (l : List Char) : List Char :=
  ((l.dropWhile isPySpace).reverse.dropWhile isPySpace).reverse

/-- Python `str.strip()`. -/
def pyStrip (s : String) : String := String.mk (pyStripList s.data)

/-- Python `str.lower()`, restricted to the ASCII case mapping (all the markers and
keys the source lowercases are ASCII). -/
def pyLowerList (l : List Char) : List Char := l.map Char.toLower

/-- Python `str.lower()` on a `String`. -/
def pyLower (s : String) : String := String.mk (pyLowerList s.data)

/-- Infix test on character lists: some drop of `hay` starts with `pat`. -/
def isInfixList (pat hay : List Char) : Bool :=
  (List.range (hay.length + 1)).any (fun i => pat.isPrefixOf (hay.drop i))

/-- Python's `needle in hay` substring test. -/
def pyContains (needle hay : String) : Bool := isInfixList needle.data hay.data

/-- Model of `re.sub(r'\s+', ' ', l)`: every maximal run of Python whitespace becomes a
single ASCII space (emitted at the end of the run). -/
def collapseWs : List Char → List Char
  | [] => []
  | [c] => if isPySpace c then [' '] else [c]
  | c :: d :: rest =>
    if isPySpace c then
      if isPySpace d then collapseWs (d :: rest)
      else ' ' :: collapseWs (d :: rest)
    else c :: collapseWs (d :: rest)

/-- Model of `re.sub(r' +', ' ', l)`: every maximal run of ASCII spaces becomes one. -/
def collapseSpaceRuns : List Char → List Char
  | [] => []
  | [c] => [c]
  | c :: d :: rest =>
    if c = ' ' ∧ d = ' ' then collapseSpaceRuns (d :: rest)
    else c :: collapseSpaceRuns (d :: rest)

/-- Model of `CouponScraper.clean_title_text` (src/main.py:38-61): collapse whitespace,
normalise a few special code points, collapse spaces again, strip, and fall
back to the sentinel `'No title'` when nothing (or nothing printable) is
left. -/
def clean_title_text (s : String) : String :=
  if s = "" then "No title"
  else
    let step1 := collapseWs s.data
    let step2 := step1.map (fun c => if c.toNat = 0xA0 then ' ' else c)
    let step3 := step2.map (fun c => if c.toNat = 0x2009 then ' ' else c)
    let step4 := step3.filter (fun c => c.toNat ≠ 0x200B)
    let step5 := collapseSpaceRuns step4
    let step6 := pyStripList step5
    if step6 = [] then "No title" else String.mk step6

/-! ### CPython `strptime` for the eight formats of `clean_expiry_date`

`datetime.strptime` compiles a format string into a regular expression
(`Lib/_strptime.py`).  The fragments relevant here, taken verbatim from
CPython:

* `%d` compiles to `3[0-1]|[1-2]\d|0[1-9]|[1-9]| [1-9]`
* `%m` compiles to `1[0-2]|0[1-9]|[1-9]`
* `%Y` compiles to `\d\d\d\d`
* `%B` compiles to the alternation of the full English month names,
  longest first; `%b` to the three-letter abbreviations; matching is
  case-insensitive
* literal whitespace in the format compiles to `\s+`; other literals are
  escaped
* the regex must match from the start and consume the whole input, and the
  engine commits to the first alternative (leftmost, greedy) that completes
  the pattern.

The parsers below return the list of pattern matches in the engine's
backtracking priority order; `strptime` commits to the head, exactly as
`re.match` does. -/

/-- Numeric value of a decimal digit character. -/
def digitVal (c : Char) : Nat := c.toNat - '0'.toNat

/-- Matches of the `%d` regex alternation, in priority order. -/
def dayParses : List Char → List (Nat × List Char)
  | c1 :: c2 :: rest =>
    (if c1 = '3' ∧ (c2 = '0' ∨ c2 = '1') then [(30 + digitVal c2, rest)] else []) ++
    (if (c1 = '1' ∨ c1 = '2') ∧ c2.isDigit then
      [(10 * digitVal c1 + digitVal c2, rest)] else []) ++
    (if c1 = '0' ∧ ('1' ≤ c2 ∧ c2 ≤ '9') then [(digitVal c2, rest)] else []) ++
    (if '1' ≤ c1 ∧ c1 ≤ '9' then [(digitVal c1, c2 :: rest)] else []) ++
    (if c1 = ' ' ∧ ('1' ≤ c2 ∧ c2 ≤ '9') then [(digitVal c2, rest)] else [])
  | [c1] => if '1' ≤ c1 ∧ c1 ≤ '9' then [(digitVal c1, [])] else []
  | [] => []

/-- Matches of the `%m` regex alternation, in priority order. -/
def monthParses : List Char → List (Nat × List Char)
  | c1 :: c2 :: rest =>
    (if c1 = '1' ∧ (c2 = '0' ∨ c2 = '1' ∨ c2 = '2') then [(10 + digitVal c2, rest)] else []) ++
    (if c1 = '0' ∧ ('1' ≤ c2 ∧ c2 ≤ '9') then [(digitVal c2, rest)] else []) ++
    (if '1' ≤ c1 ∧ c1 ≤ '9' then [(digitVal c1, c2 :: rest)] else [])
  | [c1] => if '1' ≤ c1 ∧ c1 ≤ '9' then [(digitVal c1, [])] else []
  | [] => []

/-- Matches of the `%Y` regex (`\d\d\d\d`): exactly four digits. -/
def year4Parses : List Char → List (Nat × List Char)
  | a :: b :: c :: d :: rest =>
    if a.isDigit ∧ b.isDigit ∧ c.isDigit ∧ d.isDigit then
      [(1000 * digitVal a + 100 * digitVal b + 10 * digitVal c + digitVal d, rest)]
    else []
  | _ => []

/-- Matches of `\s+` (greedy: longest first). -/
def wsParses (l : List Char) : List (List Char) :=
  let k := (l.takeWhile isPySpace).length
  (List.range k).map (fun i => l.drop (k - i))

/-- A literal character in the compiled format. -/
def litParses (c : Char) : List Char → List (List Char)
  | d :: rest => if d = c then [rest] else []
  | [] => []

/-- Full month names as they appear in CPython's compiled `%B` alternation,
with their month numbers. -/
def monthNamesFull : List (String × Nat) :=
  [("september", 9), ("february", 2), ("november", 11), ("december", 12),
   ("january", 1), ("october", 10), ("august", 8), ("march", 3), ("april", 4),
   ("june", 6), ("july", 7), ("may", 5)]

/-- Abbreviated month names of the `%b` alternation. -/
def monthNamesAbbr : List (String × Nat) :=
  [("jan", 1), ("feb", 2), ("mar", 3), ("apr", 4), ("may", 5), ("jun", 6),
   ("jul", 7), ("aug", 8), ("sep", 9), ("oct", 10), ("nov", 11), ("dec", 12)]

/-- Case-insensitive month-name match in alternation order. -/
def nameParses (names : List (String × Nat)) (l : List Char) : List (Nat × List Char) :=
  names.flatMap (fun p =>
    let pat := p.1.data
    if (l.take pat.length).map Char.toLower = pat then [(p.2, l.drop pat.length)] else [])

/-- The (day, month, year) fields a match binds; `strptime` defaults the year
to 1900 when a directive is absent (never the case for the eight formats). -/
structure DateParts where
  y : Nat
  m : Nat
  d : Nat
deriving Repr, DecidableEq

/-- One token of a compiled format string. -/
inductive FmtTok
  | day
  | mon
  | year4
  | monFull
  | monAbbr
  | lit (c : Char)
  | ws
deriving Repr, DecidableEq

/-- All matches of one token, in backtracking priority order. -/
def tokParses (t : FmtTok) (p : DateParts) (l : List Char) : List (DateParts × List Char) :=
  match t with
  | .day => (dayParses l).map (fun r => ({ p with d := r.1 }, r.2))
  | .mon => (monthParses l).map (fun r => ({ p with m := r.1 }, r.2))
  | .year4 => (year4Parses l).map (fun r => ({ p with y := r.1 }, r.2))
  | .monFull => (nameParses monthNamesFull l).map (fun r => ({ p with m := r.1 }, r.2))
  | .monAbbr => (nameParses monthNamesAbbr l).map (fun r => ({ p with m := r.1 }, r.2))
  | .lit c => (litParses c l).map (fun r => (p, r))
  | .ws => (wsParses l).map (fun r => (p, r))

/-- All matches of a token sequence (depth-first, so in the regex engine's
leftmost-greedy backtracking order). -/
def runToks : List FmtTok → DateParts → List Char → List (DateParts × List Char)
  | [], p, l => [(p, l)]
  | t :: ts, p, l => (tokParses t p l).flatMap (fun r => runToks ts r.1 r.2)

/-- The eight formats tried by `clean_expiry_date` (src/main.py:81-90), in
order. -/
inductive DateFmt
  | dmySlash
  | dmyDash
  | dmyDot
  | ymdIso
  | dFullY
  | dAbbrY
  | fullDY
  | abbrDY
deriving Repr, DecidableEq

/-- Token sequence of each format's compiled regex. -/
def fmtToks : DateFmt → List FmtTok
  | .dmySlash => [.day, .lit '/', .mon, .lit '/', .year4]
  | .dmyDash => [.day, .lit '-', .mon, .lit '-', .year4]
  | .dmyDot => [.day, .lit '.', .mon, .lit '.', .year4]
  | .ymdIso => [.year4, .lit '-', .mon, .lit '-', .day]
  | .dFullY => [.day, .ws, .monFull, .ws, .year4]
  | .dAbbrY => [.day, .ws, .monAbbr, .ws, .year4]
  | .fullDY => [.monFull, .ws, .day, .lit ',', .ws, .year4]
  | .abbrDY => [.monAbbr, .ws, .day, .lit ',', .ws, .year4]

/-- The `date_formats` list of `clean_expiry_date`. -/
def date_formats : List DateFmt :=
  [.dmySlash, .dmyDash, .dmyDot, .ymdIso, .dFullY, .dAbbrY, .fullDY, .abbrDY]

/-- Gregorian leap-year test (`datetime`'s calendar). -/
def isLeapYear (y : Nat) : Bool := y % 4 = 0 ∧ (y % 100 ≠ 0 ∨ y % 400 = 0)

/-- Length of a month in the proleptic Gregorian calendar. -/
def daysInMonth (y m : Nat) : Nat :=
  if m = 2 then (if isLeapYear y then 29 else 28)
  else if m = 4 ∨ m = 6 ∨ m = 9 ∨ m = 11 then 30 else 31

/-- The `datetime(year, month, day)` constructor's validation: `ValueError`
(here `none`) unless 1 ≤ year ≤ 9999 and the day fits the month. -/
def mkValidDate (p : DateParts) : Option DateParts :=
  if 1 ≤ p.y ∧ p.y ≤ 9999 ∧ 1 ≤ p.m ∧ p.m ≤ 12 ∧ 1 ≤ p.d ∧ p.d ≤ daysInMonth p.y p.m
  then some p else none

/-- Model of `datetime.strptime(s, f)`: run the compiled regex, commit to the engine's
first match, require it to consume the whole input, then validate the date.
`none` models the `ValueError` the caller catches. -/
def strptime (f : DateFmt) (s : String) : Option DateParts :=
  match runToks (fmtToks f) ⟨1900, 1, 1⟩ s.data with
  | [] => none
  | r :: _ => if r.2 = [] then mkValidDate r.1 else none

/-- Zero-padded two-digit rendering (`%m`, `%d`). -/
def pad2 (n : Nat) : String := if n < 10 then "0" ++ toString n else toString n

/-- Model of `strftime('%Y-%m-%d')` as CPython produces it on Linux/glibc: month and
day zero-padded to two digits, the year printed as a plain decimal (so it has
four digits only for years ≥ 1000; `datetime(99, 1, 1)` renders as
`99-01-01`, checked empirically against CPython). -/
def isoOfDate (p : DateParts) : String := toString p.y ++ "-" ++ pad2 p.m ++ "-" ++ pad2 p.d

/-- Model of `re.sub(r'^expiry\s*', '', l, flags=re.IGNORECASE)`: drop a
case-insensitive `expiry` prefix together with the whitespace run after it. -/
def stripExpiryPrefix (l : List Char) : List Char :=
  if (l.take 6).map Char.toLower = "expiry".data then (l.drop 6).dropWhile isPySpace
  else l

/-- Model of `CouponScraper.clean_expiry_date` (src/main.py:63-108): `None` for empty
input or the `'No expiry date found'` sentinel; otherwise strip, drop the
`Expiry` prefix, strip again, and try the eight date formats in order,
rendering the first successful parse with `strftime('%Y-%m-%d')`; `None`
when nothing parses. -/
def clean_expiry_date (s : String) : Option String :=
  if s = "" ∨ s = "No expiry date found" then none
  else
    let cleaned := pyStripList (stripExpiryPrefix (pyStripList s.data))
    if cleaned = [] then none
    else (date_formats.findSome? (fun f => strptime f (String.mk cleaned))).map isoOfDate

/-- Spec-shaped predicate (from the spec's words, for comparison with the
code's output): a string of exactly ten characters `DDDD-DD-DD`, i.e. the
ISO `YYYY-MM-DD` shape. -/
def isIsoYmd (s : String) : Bool :=
  match s.data with
  | [y1, y2, y3, y4, h1, m1, m2, h2, d1, d2] =>
    y1.isDigit && y2.isDigit && y3.isDigit && y4.isDigit && h1 == '-' &&
    m1.isDigit && m2.isDigit && h2 == '-' && d1.isDigit && d2.isDigit
  | _ => false

/-! ### Per-card reveal traversal (`CouponScraper.scrape_coupons`, src/main.py:474-746)

The browser is an adversarial external interface; each card attempt is
modelled by a `CardEnv` record carrying every observation and fault the
environment can produce at the await points of the card body
(src/main.py:487-733).  The card body is one `try` block whose handler
(src/main.py:735-741) closes the open page and reopens a clean shop page;
exceptions inside the detail-extraction `try` (src/main.py:584-702) are
caught by the inner handler at src/main.py:701 and do not escape. -/

/-- One coupon record as appended at src/main.py:705-712. -/
structure Coupon where
  title : String
  code : String
  description : String
  termsAndConditions : String
  expiryDate : String
  url : String
deriving Repr, DecidableEq

/-- Where, if anywhere, an exception interrupts the inner
detail-extraction `try` (src/main.py:584-702).  Such an exception is caught
at src/main.py:701; fields assigned before the fault keep their values,
later ones keep their sentinel defaults. -/
inductive InnerFault
  | noFault
  | atCode
  | atDesc
  | atTerms
deriving Repr, DecidableEq

/-- Environment observations for one opened popup page. -/
structure PopupEnv where
  /-- Value of `popup_page.url`, the coupon's origin URL. -/
  url : String
  /-- Inner text of the code element when the selector matches. -/
  code : Option String
  /-- One slot per description selector, in order: the element's inner text
  when the selector matches. -/
  descs : List (Option String)
  /-- Non-empty paragraph texts of the first successful terms selector
  (empty when the terms button or its content is not found). -/
  termsParas : List String
  /-- Exception, if any, inside the detail-extraction `try`. -/
  innerFault : InnerFault
deriving Repr, DecidableEq

/-- Environment observations and faults for one card index of a pass. -/
structure CardEnv where
  /-- The re-fetched button list still contains this index (src/main.py:491). -/
  available : Bool
  /-- Inner text of the enclosing voucher-card container (src/main.py:503). -/
  cardText : String
  /-- Raw title text when the title div is visible (src/main.py:512-521). -/
  titleText : Option String
  /-- Raw expiry text of the first visible expiry selector (src/main.py:528-547). -/
  expiryText : Option String
  /-- Holds `some` when the click yields a new page within the 10s timeout and it
  reaches its load state (src/main.py:554-558); `none` models the timeout. -/
  popup : Option PopupEnv
  /-- Exception closing the repurposed shop page (src/main.py:566), escaping
  to the per-card handler before the duplicate check. -/
  closeShopFault : Bool
  /-- Exception inside the duplicate branch (src/main.py:578-581), escaping
  to the per-card handler. -/
  dupBranchFault : Bool
  /-- Exception reopening the shop page after the append (src/main.py:730-732),
  escaping to the per-card handler. -/
  postFault : Bool
deriving Repr, DecidableEq

/-- Page-level actions a card attempt performs, in order. -/
inductive Effect
  | closedShopPage
  | closedPopup
  | reopenedShopPage
  | appendedRecord
  | handlerReset
deriving Repr, DecidableEq

/-- Terminal outcome of one card attempt. -/
inductive Outcome
  | skippedStale
  | skippedUnverified
  | abandonedNoPopup
  | skippedDuplicate
  | recorded
  | aborted
deriving Repr, DecidableEq

/-- Per-shop traversal state: the shop's coupon list
(`self.shop_results[shop_name]['coupons']`), the per-shop seen-URL set
(`processed_coupons`, src/main.py:471, a set modelled as its insertion-order
list) and the `all_processed` pass flag (src/main.py:484). -/
structure ShopState where
  coupons : List Coupon
  processed : List String
  allProcessed : Bool
deriving Repr, DecidableEq

/-- The fresh state a shop starts from (src/main.py:461-471). -/
def initShopState : ShopState := ⟨[], [], true⟩

/-- Test `'verified' in card_text.lower()` (src/main.py:504). -/
def containsVerified (cardText : String) : Bool := pyContains "verified" (pyLower cardText)

/-- The description fallback loop (src/main.py:594-606): each matching
selector overwrites `description`; the loop stops at the first non-empty
text that differs from the code. -/
def pickDescription (code : String) (acc : String) : List (Option String) → String
  | [] => acc
  | none :: rest => pickDescription code acc rest
  | some t :: rest => if t ≠ "" ∧ t ≠ code then t else pickDescription code t rest

/-- Value of `code` after the extraction at src/main.py:586-591. -/
def codeOf (pe : PopupEnv) : String := pe.code.getD "No code found"

/-- Value of `description` after the fallback loop. -/
def descOf (pe : PopupEnv) : String :=
  pickDescription (codeOf pe) "No description found" pe.descs

/-- Value of `terms_and_conditions` after the terms flow (src/main.py:608-699):
the paragraphs of the first successful selector joined with a newline, else
the sentinel. -/
def termsOf (pe : PopupEnv) : String :=
  if pe.termsParas = [] then "No terms and conditions found"
  else String.intercalate "\n" pe.termsParas

/-- Triple `(code, description, terms)` as left by the inner detail-extraction
`try`: a fault keeps the defaults of the phases not yet run. -/
def detailResults (pe : PopupEnv) : String × String × String :=
  match pe.innerFault with
  | .atCode => ("No code found", "No description found", "No terms and conditions found")
  | .atDesc => (codeOf pe, "No description found", "No terms and conditions found")
  | .atTerms => (codeOf pe, descOf pe, "No terms and conditions found")
  | .noFault => (codeOf pe, descOf pe, termsOf pe)

/-- Value of `code_title` as extracted before the click (src/main.py:510-523): the
cleaned title when the title div is visible, else the sentinel. -/
def titleOf (e : CardEnv) : String :=
  match e.titleText with
  | some raw => clean_title_text raw
  | none => "No title found"

/-- Value of `expiry_date` as extracted before the click (src/main.py:526-549). -/
def expiryOf (e : CardEnv) : String :=
  match e.expiryText with
  | some raw => (clean_expiry_date raw).getD "No expiry date found"
  | none => "No expiry date found"

/-- The coupon dict appended at src/main.py:705-712 for a card that reaches
the append. -/
def mkRecord (e : CardEnv) (pe : PopupEnv) : Coupon :=
  ⟨titleOf e, (detailResults pe).1, (detailResults pe).2.1, (detailResults pe).2.2,
   expiryOf e, pe.url⟩

/-- One iteration of the per-card `for` loop (src/main.py:486-741): mirrors
the stale-index skip, the `Verified` filter, pre-click title/expiry
extraction, the popup race, the origin-URL duplicate check, detail
extraction, the append, and the per-card exception handler. -/
def processCard (e : CardEnv) (st : ShopState) : ShopState × Outcome × List Effect :=
  if ¬ e.available then (st, .skippedStale, [])
  else if ¬ containsVerified e.cardText then (st, .skippedUnverified, [])
  else
    match e.popup with
    | none => (st, .abandonedNoPopup, [])
    | some pe =>
      if e.closeShopFault then (st, .aborted, [.handlerReset])
      else if st.processed.contains pe.url then
        if e.dupBranchFault then (st, .aborted, [.closedShopPage, .handlerReset])
        else (st, .skippedDuplicate, [.closedShopPage, .closedPopup, .reopenedShopPage])
      else
        let st' : ShopState :=
          { coupons := st.coupons ++ [mkRecord e pe]
            processed := st.processed ++ [pe.url]
            allProcessed := false }
        if e.postFault then
          (st', .aborted, [.closedShopPage, .appendedRecord, .closedPopup, .handlerReset])
        else
          (st', .recorded, [.closedShopPage, .appendedRecord, .closedPopup, .reopenedShopPage])

/-- State transition of one card attempt. -/
def runPassStep (st : ShopState) (e : CardEnv) : ShopState := (processCard e st).1

/-- One full pass of the `for j in range(len(promo_buttons))` loop:
`all_processed = True` (src/main.py:484), then every card index once. -/
def runPass (events : List CardEnv) (st : ShopState) : ShopState :=
  events.foldl runPassStep { st with allProcessed := true }

/-- The per-shop `while True` loop (src/main.py:474-746) against a trace of
per-pass environments: exit when the button enumeration is empty, run a
pass, exit when its `all_processed` flag survived, else loop.  An exhausted
trace means the environment provides no further behaviour. -/
def runShop : List (List CardEnv) → ShopState → ShopState
  | [], st => st
  | pass :: rest, st =>
    if pass = [] then st
    else
      let st' := runPass pass st
      if st'.allProcessed then st' else runShop rest st'

/-! ### Catalog pager (src/main.py:379-759)

One `while shops_processed < max_shops` iteration re-queries the listing,
skips names already in `processed_shops`, fully processes the first unseen
shop (creating its `shop_results` entry), increments the counter and breaks
back to a fresh listing page.  `listings k` is the link-name list the `k`-th
listing query returns; the result is the ordered list of shop names that
got a `shop_results` entry. -/

/-- The pager loop, with `fuel = max_shops - shops_processed`. -/
def catalogLoop (listings : Nat → List String) : Nat → List String → List String
  | 0, entries => entries
  | fuel + 1, entries =>
    let links := listings entries.length
    if links = [] then entries
    else
      match links.find? (fun n => !(entries.contains n)) with
      | none => entries
      | some n => catalogLoop listings fuel (entries ++ [n])

/-- A whole run of the pager from an empty processed set. -/
def catalogRun (listings : Nat → List String) (maxShops : Nat) : List String :=
  catalogLoop listings maxShops []

/-! ### Persistence-side duplicate filtering
(`CouponScraper.save_to_supabase_stable`, src/main.py:218-244) -/

/-- The fields of a scraped coupon dict that the persistence loop's
no-title filter, duplicate key and upsert row depend on. -/
structure RawCoupon where
  title : String
  code : String
  url : String
deriving Repr, DecidableEq

/-- The duplicate key `(shop_id, cleaned_code.lower(), cleaned_title.lower())`
(src/main.py:235). -/
def couponKey (shopId : Nat) (code title : String) : Nat × String × String :=
  (shopId, pyLower code, pyLower title)

/-- An attempted `upsert_coupon_with_embedding` call, keeping the fields the
dedup invariant speaks about. -/
structure UpsertRow where
  shopId : Nat
  code : String
  title : String
  url : String
deriving Repr, DecidableEq

/-- Key of an upsert row. -/
def rowKey (r : UpsertRow) : Nat × String × String := couponKey r.shopId r.code r.title

/-- Accumulator of the per-shop coupon persistence loop. -/
structure SaveState where
  seenKeys : List (Nat × String × String)
  upserts : List UpsertRow
  skippedDuplicates : Nat
  skippedNoTitle : Nat
deriving Repr, DecidableEq

/-- One iteration of the `for coupon in shop_data['coupons']` loop
(src/main.py:222-244): clean, drop no-title coupons, skip keys already in
`processed_coupon_keys`, otherwise register the key and attempt the upsert. -/
def saveCouponStep (shopId : Nat) (acc : SaveState) (c : RawCoupon) : SaveState :=
  let cleaned_title := clean_title_text c.title
  let cleaned_code := pyStrip c.code
  if cleaned_title = "No title" ∨ cleaned_title = "No title found" then
    { acc with skippedNoTitle := acc.skippedNoTitle + 1 }
  else
    let key := couponKey shopId cleaned_code cleaned_title
    if acc.seenKeys.contains key then
      { acc with skippedDuplicates := acc.skippedDuplicates + 1 }
    else
      { acc with
        seenKeys := acc.seenKeys ++ [key]
        upserts := acc.upserts ++ [⟨shopId, cleaned_code, cleaned_title, c.url⟩] }

/-- The persistence loop over one shop's coupon list. -/
def saveShopCoupons (shopId : Nat) (coupons : List RawCoupon) : SaveState :=
  coupons.foldl (saveCouponStep shopId) ⟨[], [], 0, 0⟩

/-! ### Predicates and concrete environments used by the theorems -/

/-- Invariant tying a shop's coupon list to its seen-URL set: recorded origin
URLs are pairwise distinct and each of them is in `processed_coupons`. -/
def UrlInv (st : ShopState) : Prop :=
  (st.coupons.map Coupon.url).Nodup ∧ ∀ c ∈ st.coupons, st.processed.contains c.url = true

/-- Invariant of the persistence loop: the attempted upserts correspond
one-to-one, in order, to the registered keys, and the keys are distinct. -/
def SaveInv (acc : SaveState) : Prop :=
  acc.upserts.map rowKey = acc.seenKeys ∧ acc.seenKeys.Nodup

/-- Spec-shaped helper (from the spec's words): the first selector slot whose
text is non-empty and differs from the code. -/
def firstGoodDesc (code : String) (slots : List (Option String)) : Option String :=
  slots.findSome? (fun s =>
    match s with
    | some t => if t ≠ "" ∧ t ≠ code then some t else none
    | none => none)

/-- The last selector slot that matched at all (each match overwrites
`description` in the source loop). -/
def lastHit (slots : List (Option String)) : Option String := (slots.filterMap id).getLast?

/-- A verified card whose popup opens on a fresh URL and whose
detail-extraction `try` raises at the very first step (`innerFault = atCode`,
the exception caught at src/main.py:701): used to test whether a faulting
card can still append a record. -/
def detailFaultCard : CardEnv :=
  { available := true
    cardText := "Verified"
    titleText := some "10% Off Everything"
    expiryText := none
    popup := some
      { url := "https://coupon.example/reveal/1"
        code := none
        descs := []
        termsParas := []
        innerFault := .atCode }
    closeShopFault := false
    dupBranchFault := false
    postFault := false }

/-- A verified card whose only matching description selector yields exactly
the extracted code text: used to test whether the recorded description can
equal the code. -/
def descEqCodeCard : CardEnv :=
  { available := true
    cardText := "Verified"
    titleText := some "Deal"
    expiryText := none
    popup := some
      { url := "https://coupon.example/reveal/2"
        code := some "SAVE10"
        descs := [some "SAVE10", none, none]
        termsParas := []
        innerFault := .noFault }
    closeShopFault := false
    dupBranchFault := false
    postFault := false }

/-- First of two fault-free verified cards resolving to the same origin URL. -/
def sameUrlCardA : CardEnv :=
  { available := true
    cardText := "Verified"
    titleText := some "10% Off"
    expiryText := none
    popup := some
      { url := "https://coupon.example/go"
        code := some "TEN"
        descs := []
        termsParas := []
        innerFault := .noFault }
    closeShopFault := false
    dupBranchFault := false
    postFault := false }

/-- Second card resolving to the same origin URL as `sameUrlCardA` (its other
attributes differ). -/
def sameUrlCardB : CardEnv :=
  { available := true
    cardText := "Verified"
    titleText := some "Ten Percent Off"
    expiryText := none
    popup := some
      { url := "https://coupon.example/go"
        code := some "TEN-B"
        descs := []
        termsParas := []
        innerFault := .noFault }
    closeShopFault := false
    dupBranchFault := false
    postFault := false }

/-- A plain successful verified card on a fresh URL with no title element. -/
def noTitleCard : CardEnv :=
  { available := true
    cardText := "Verified"
    titleText := none
    expiryText := none
    popup := some
      { url := "https://coupon.example/reveal/3"
        code := some "FREESHIP"
        descs := [some "Free shipping"]
        termsParas := []
        innerFault := .noFault }
    closeShopFault := false
    dupBranchFault := false
    postFault := false }

/-- A card whose container text lacks the `verified` marker. -/
def unverifiedCard : CardEnv :=
  { available := true
    cardText := "Expired offer"
    titleText := some "Old Deal"
    expiryText := none
    popup := some
      { url := "https://coupon.example/reveal/4"
        code := some "OLD"
        descs := []
        termsParas := []
        innerFault := .noFault }
    closeShopFault := false
    dupBranchFault := false
    postFault := false }

/-- A verified card whose reveal click never yields a new page in time. -/
def timeoutCard : CardEnv :=
  { available := true
    cardText := "Verified"
    titleText := some "Deal"
    expiryText := none
    popup := none
    closeShopFault := false
    dupBranchFault := false
    postFault := false }

/-- A verified card whose popup opens but whose close of the repurposed shop
page (src/main.py:566) raises, escaping to the per-card handler. -/
def closeFaultCard : CardEnv :=
  { available := true
    cardText := "Verified"
    titleText := some "Deal"
    expiryText := none
    popup := some
      { url := "https://coupon.example/reveal/5"
        code := some "FIVE"
        descs := []
        termsParas := []
        innerFault := .noFault }
    closeShopFault := true
    dupBranchFault := false
    postFault := false }

/-! ### Helper lemmas -/

theorem list_contains_iff {α : Type} [BEq α] [LawfulBEq α] (l : List α) (a : α) :
    l.contains a = true ↔ a ∈ l := by
  simp [List.contains]

/-- Every card attempt either leaves the shop state untouched or appends
exactly one record for a fresh origin URL and registers that URL. -/
theorem processCard_fst_cases (e : CardEnv) (st : ShopState) :
    (processCard e st).1 = st ∨
    ∃ pe : PopupEnv, e.popup = some pe ∧ st.processed.contains pe.url = false ∧
      (processCard e st).1 =
        { coupons := st.coupons ++ [mkRecord e pe]
          processed := st.processed ++ [pe.url]
          allProcessed := false } := by
  unfold processCard
  cases hav : e.available with
  | false => left; simp
  | true =>
    cases hver : containsVerified e.cardText with
    | false => left; simp
    | true =>
      cases hpop : e.popup with
      | none => left; simp
      | some pe =>
        cases hcsf : e.closeShopFault with
        | true => left; simp
        | false =>
          cases hdup : st.processed.contains pe.url with
          | true =>
            have hmem : pe.url ∈ st.processed := (list_contains_iff _ _).mp hdup
            cases hdbf : e.dupBranchFault with
            | true => left; simp [hmem]
            | false => left; simp [hmem]
          | false =>
            have hnm : pe.url ∉ st.processed := fun hm => by
              have h2 := (list_contains_iff st.processed pe.url).mpr hm
              rw [hdup] at h2
              exact Bool.false_ne_true h2
            right
            refine ⟨pe, rfl, hdup, ?_⟩
            cases hpf : e.postFault with
            | true => simp [hnm]
            | false => simp [hnm]

/-- A card attempt preserves the URL invariant: the only mutation is an
append guarded by the seen-set. -/
theorem urlInv_step (e : CardEnv) (st : ShopState) (h : UrlInv st) :
    UrlInv (runPassStep st e) := by
  rcases processCard_fst_cases e st with heq | ⟨pe, _, hfresh, heq⟩
  · show UrlInv (processCard e st).1
    rw [heq]; exact h
  · show UrlInv (processCard e st).1
    rw [heq]
    constructor
    · have hnm : pe.url ∉ st.coupons.map Coupon.url := by
        intro hm
        rcases List.mem_map.mp hm with ⟨c, hc, hcu⟩
        have := h.2 c hc
        rw [hcu, hfresh] at this
        exact Bool.false_ne_true this
      simp only [List.map_append, List.map_cons, List.map_nil, List.nodup_append]
      refine ⟨h.1, List.nodup_singleton _, ?_⟩
      intro x hx hx2
      simp only [mkRecord, List.mem_singleton] at hx2
      subst hx2
      exact hnm hx
    · intro c hc
      rcases List.mem_append.mp hc with hc | hc
      · have := (list_contains_iff _ _).mp (h.2 c hc)
        exact (list_contains_iff _ _).mpr (List.mem_append.mpr (Or.inl this))
      · simp only [List.mem_singleton] at hc
        subst hc
        exact (list_contains_iff _ _).mpr (List.mem_append.mpr (Or.inr (by simp [mkRecord])))

/-- The URL invariant is preserved by any sequence of card attempts. -/
theorem urlInv_foldl (events : List CardEnv) :
    ∀ st : ShopState, UrlInv st → UrlInv (events.foldl runPassStep st) := by
  induction events with
  | nil => intro st h; exact h
  | cons e rest ih => intro st h; exact ih _ (urlInv_step e st h)

/-- The URL invariant is preserved by one pass. -/
theorem urlInv_runPass (events : List CardEnv) (st : ShopState) (h : UrlInv st) :
    UrlInv (runPass events st) :=
  urlInv_foldl events _ ⟨h.1, h.2⟩

/-- The URL invariant is preserved by the whole per-shop loop. -/
theorem urlInv_runShop (trace : List (List CardEnv)) :
    ∀ st : ShopState, UrlInv st → UrlInv (runShop trace st) := by
  induction trace with
  | nil => intro st h; exact h
  | cons pass rest ih =>
    intro st h
    by_cases hp : pass = []
    · simpa [runShop, hp] using h
    · have h1 := urlInv_runPass pass st h
      by_cases hf : (runPass pass st).allProcessed = true
      · simpa [runShop, hp, hf] using h1
      · simpa [runShop, hp, hf] using ih _ h1

/-- Once the pass flag is false, it stays false for the rest of the pass. -/
theorem flag_false_step (st : ShopState) (e : CardEnv) (h : st.allProcessed = false) :
    (runPassStep st e).allProcessed = false := by
  rcases processCard_fst_cases e st with heq | ⟨pe, _, _, heq⟩
  · show ((processCard e st).1).allProcessed = false
    rw [heq]; exact h
  · show ((processCard e st).1).allProcessed = false
    rw [heq]

/-- Lemma `flag_false_step`, folded over the remaining cards. -/
theorem flag_false_foldl (events : List CardEnv) :
    ∀ st : ShopState, st.allProcessed = false →
      (events.foldl runPassStep st).allProcessed = false := by
  induction events with
  | nil => intro st h; exact h
  | cons e rest ih => intro st h; exact ih _ (flag_false_step st e h)

/-- Card attempts never shrink the coupon list. -/
theorem coupons_len_step (st : ShopState) (e : CardEnv) :
    st.coupons.length ≤ (runPassStep st e).coupons.length := by
  rcases processCard_fst_cases e st with heq | ⟨pe, _, _, heq⟩
  · show st.coupons.length ≤ ((processCard e st).1).coupons.length
    rw [heq]
  · show st.coupons.length ≤ ((processCard e st).1).coupons.length
    rw [heq]; simp

/-- Lemma `coupons_len_step`, folded. -/
theorem coupons_len_foldl (events : List CardEnv) :
    ∀ st : ShopState, st.coupons.length ≤ (events.foldl runPassStep st).coupons.length := by
  induction events with
  | nil => intro st; exact Nat.le_refl _
  | cons e rest ih =>
    intro st
    exact Nat.le_trans (coupons_len_step st e) (ih (runPassStep st e))

/-- If the pass flag survives a fold, no attempt in it appended anything. -/
theorem foldl_flag_true_coupons (events : List CardEnv) :
    ∀ st : ShopState, (events.foldl runPassStep st).allProcessed = true →
      (events.foldl runPassStep st).coupons = st.coupons := by
  induction events with
  | nil => intro st _; rfl
  | cons e rest ih =>
    intro st h
    rcases processCard_fst_cases e st with heq | ⟨pe, _, _, heq⟩
    · have hstep : runPassStep st e = st := heq
      rw [List.foldl_cons, hstep] at h ⊢
      exact ih st h
    · exfalso
      have hstep : (runPassStep st e).allProcessed = false := by
        show ((processCard e st).1).allProcessed = false
        rw [heq]
      have := flag_false_foldl rest (runPassStep st e) hstep
      rw [List.foldl_cons] at h
      rw [h] at this
      exact Bool.false_ne_true this.symm

/-- A fold that ends with the flag down strictly grew the coupon list. -/
theorem foldl_flag_false_len (events : List CardEnv) :
    ∀ st : ShopState, st.allProcessed = true →
      (events.foldl runPassStep st).allProcessed = false →
      st.coupons.length < (events.foldl runPassStep st).coupons.length := by
  induction events with
  | nil =>
    intro st h1 h2
    simp only [List.foldl_nil] at h2
    rw [h1] at h2
    exact absurd h2 (by simp)
  | cons e rest ih =>
    intro st h1 h2
    rcases processCard_fst_cases e st with heq | ⟨pe, _, _, heq⟩
    · have hstep : runPassStep st e = st := heq
      rw [List.foldl_cons, hstep] at h2 ⊢
      exact ih st h1 h2
    · have hstep : runPassStep st e = ⟨st.coupons ++ [mkRecord e pe], st.processed ++ [pe.url], false⟩ := heq
      rw [List.foldl_cons, hstep]
      calc st.coupons.length
          < (st.coupons ++ [mkRecord e pe]).length := by simp
        _ ≤ _ :=
          coupons_len_foldl rest ⟨st.coupons ++ [mkRecord e pe], st.processed ++ [pe.url], false⟩

/-- Fact that `List.find?` only returns elements satisfying its predicate (wrapper
fixing the predicate explicitly). -/
theorem find?_pred {α : Type} (p : α → Bool) (l : List α) (a : α) (h : l.find? p = some a) :
    p a = true := List.find?_some h

/-- The pager performs at most `fuel` productive iterations. -/
theorem catalogLoop_length_le (L : Nat → List String) :
    ∀ (fuel : Nat) (entries : List String),
      (catalogLoop L fuel entries).length ≤ entries.length + fuel := by
  intro fuel
  induction fuel with
  | zero => intro entries; simp [catalogLoop]
  | succ n ih =>
    intro entries
    by_cases hl : L entries.length = []
    · have heq : catalogLoop L (n + 1) entries = entries := by simp [catalogLoop, hl]
      rw [heq]; omega
    · cases hf : (L entries.length).find? (fun x => !(entries.contains x)) with
      | none =>
        have heq : catalogLoop L (n + 1) entries = entries := by
          simp only [catalogLoop]
          rw [if_neg hl, hf]
        rw [heq]; omega
      | some m =>
        have heq : catalogLoop L (n + 1) entries = catalogLoop L n (entries ++ [m]) := by
          simp only [catalogLoop]
          rw [if_neg hl, hf]
        rw [heq]
        have h2 := ih (entries ++ [m])
        simp only [List.length_append, List.length_singleton] at h2
        omega

/-- The pager never records a shop name twice. -/
theorem catalogLoop_nodup (L : Nat → List String) :
    ∀ (fuel : Nat) (entries : List String), entries.Nodup →
      (catalogLoop L fuel entries).Nodup := by
  intro fuel
  induction fuel with
  | zero => intro entries h; simpa [catalogLoop] using h
  | succ n ih =>
    intro entries h
    by_cases hl : L entries.length = []
    · have heq : catalogLoop L (n + 1) entries = entries := by simp [catalogLoop, hl]
      rw [heq]; exact h
    · cases hf : (L entries.length).find? (fun x => !(entries.contains x)) with
      | none =>
        have heq : catalogLoop L (n + 1) entries = entries := by
          simp only [catalogLoop]
          rw [if_neg hl, hf]
        rw [heq]; exact h
      | some m =>
        have heq : catalogLoop L (n + 1) entries = catalogLoop L n (entries ++ [m]) := by
          simp only [catalogLoop]
          rw [if_neg hl, hf]
        rw [heq]
        apply ih
        have hm := find?_pred (fun x => !(entries.contains x)) (L entries.length) m hf
        simp only [Bool.not_eq_true'] at hm
        have hnm : m ∉ entries := by
          intro hmem
          rw [(list_contains_iff entries m).mpr hmem] at hm
          exact absurd hm (by decide)
        simp [List.nodup_append, h, hnm]

/-- One persistence-loop iteration preserves the key/upsert invariant. -/
theorem saveStep_inv (shopId : Nat) (acc : SaveState) (c : RawCoupon) (h : SaveInv acc) :
    SaveInv (saveCouponStep shopId acc c) := by
  unfold saveCouponStep
  by_cases ht : clean_title_text c.title = "No title" ∨ clean_title_text c.title = "No title found"
  · simpa [ht] using h
  · simp only [if_neg ht]
    by_cases hmem : couponKey shopId (pyStrip c.code) (clean_title_text c.title) ∈ acc.seenKeys
    · simpa [hmem] using h
    · have hc : acc.seenKeys.contains
          (couponKey shopId (pyStrip c.code) (clean_title_text c.title)) = false := by
        cases hb : acc.seenKeys.contains (couponKey shopId (pyStrip c.code) (clean_title_text c.title)) with
        | false => rfl
        | true => exact absurd ((list_contains_iff _ _).mp hb) hmem
      simp only [hc, Bool.false_eq_true, if_false]
      constructor
      · simp [rowKey, couponKey, h.1]
      · simp [List.nodup_append, h.2, hmem]

/-- The key/upsert invariant holds after the whole persistence loop. -/
theorem saveShopCoupons_inv (shopId : Nat) (coupons : List RawCoupon) :
    SaveInv (saveShopCoupons shopId coupons) := by
  unfold saveShopCoupons
  generalize hs : (⟨[], [], 0, 0⟩ : SaveState) = s0
  have h0 : SaveInv s0 := by rw [← hs]; exact ⟨rfl, List.nodup_nil⟩
  clear hs
  induction coupons generalizing s0 with
  | nil => exact h0
  | cons c rest ih => exact ih _ (saveStep_inv shopId s0 c h0)

/-- The description loop, fully characterised: the first non-empty candidate
differing from the code wins; failing that, the last matching candidate (or
the initial value) is what remains. -/
theorem pickDescription_characterisation (code : String) :
    ∀ (slots : List (Option String)) (acc : String),
      pickDescription code acc slots =
        (firstGoodDesc code slots).getD ((lastHit slots).getD acc) := by
  intro slots
  induction slots with
  | nil => intro acc; simp [pickDescription, firstGoodDesc, lastHit]
  | cons s rest ih =>
    intro acc
    cases s with
    | none =>
      simp only [pickDescription, firstGoodDesc, lastHit, List.findSome?_cons, List.filterMap_cons]
      exact ih acc
    | some t =>
      by_cases hg : t ≠ "" ∧ t ≠ code
      · simp [pickDescription, hg, firstGoodDesc, List.findSome?_cons]
      · have hstep : pickDescription code acc (some t :: rest) = pickDescription code t rest := by
          simp [pickDescription, hg]
        rw [hstep, ih t]
        have hfg : firstGoodDesc code (some t :: rest) = firstGoodDesc code rest := by
          simp [firstGoodDesc, List.findSome?_cons, hg]
        rw [hfg]
        have hlh : lastHit (some t :: rest) = (t :: rest.filterMap id).getLast? := by
          simp [lastHit, List.filterMap_cons]
        rw [hlh]
        cases hr : rest.filterMap id with
        | nil =>
          have : lastHit rest = none := by simp [lastHit, hr]
          simp [this]
        | cons x xs =>
          have : lastHit rest = (x :: xs).getLast? := by simp [lastHit, hr]
          rw [this, List.getLast?_cons_cons]
          cases hlast : (x :: xs).getLast? with
          | none => simp [List.getLast?] at hlast
          | some y => simp

/-! ### Claims -/

/-- C1: within one shop's traversal the origin URL is the dedup key.  A popup
whose URL is already in the seen-set is closed, a fresh shop page is
reopened, and nothing is appended; consequently the origin URLs of a shop's
recorded coupons are pairwise distinct, and two cards resolving to the same
origin URL leave exactly one record. -/
theorem C1_origin_url_dedup :
    (∀ (e : CardEnv) (st : ShopState) (pe : PopupEnv),
      e.available = true → containsVerified e.cardText = true → e.popup = some pe →
      e.closeShopFault = false → e.dupBranchFault = false →
      st.processed.contains pe.url = true →
      processCard e st =
        (st, .skippedDuplicate, [.closedShopPage, .closedPopup, .reopenedShopPage])) ∧
    (∀ trace : List (List CardEnv),
      ((runShop trace initShopState).coupons.map Coupon.url).Nodup) ∧
    (runShop [[sameUrlCardA, sameUrlCardB]] initShopState).coupons.map Coupon.url =
      ["https://coupon.example/go"] := by
  refine ⟨?_, ?_, ?_⟩
  · intro e st pe h1 h2 h3 h4 h5 h6
    have hmem := (list_contains_iff _ _).mp h6
    simp [processCard, h1, h2, h3, h4, h5, hmem]
  · intro trace
    exact (urlInv_runShop trace initShopState ⟨List.nodup_nil, by intro c hc; cases hc⟩).1
  · rfl

/-- Witness for C1: the duplicate branch at a concrete seen URL. -/
theorem C1_origin_url_dedup_witness :
    processCard sameUrlCardB ⟨[], ["https://coupon.example/go"], true⟩ =
      (⟨[], ["https://coupon.example/go"], true⟩, .skippedDuplicate,
       [.closedShopPage, .closedPopup, .reopenedShopPage]) :=
  C1_origin_url_dedup.1 sameUrlCardB ⟨[], ["https://coupon.example/go"], true⟩
    ⟨"https://coupon.example/go", some "TEN-B", [], [], .noFault⟩
    rfl rfl rfl rfl rfl rfl

/-- C2: a card whose container text lacks the marker `verified`
(case-insensitively) is skipped before any reveal action: the shop state is
unchanged and the card attempt performs no page action at all, so no record
is ever produced for it. -/
theorem C2_unverified_card_never_recorded :
    ∀ (e : CardEnv) (st : ShopState), containsVerified e.cardText = false →
      (processCard e st).1 = st ∧ (processCard e st).2.2 = [] := by
  intro e st h
  cases hav : e.available with
  | false => exact ⟨by simp [processCard, hav], by simp [processCard, hav]⟩
  | true => exact ⟨by simp [processCard, hav, h], by simp [processCard, hav, h]⟩

/-- Witness for C2 at a concrete unverified card. -/
theorem C2_unverified_card_never_recorded_witness :
    (processCard unverifiedCard initShopState).1 = initShopState ∧
    (processCard unverifiedCard initShopState).2.2 = [] :=
  C2_unverified_card_never_recorded unverifiedCard initShopState rfl

/-- C3: the per-shop enumeration loop's exit structure.  An empty button
enumeration exits immediately; a pass whose flag survives exits after that
pass; a pass that recorded something repeats the loop; and the flag survives
a pass exactly when the pass appended zero new records. -/
theorem C3_shop_loop_exit_conditions :
    (∀ (rest : List (List CardEnv)) (st : ShopState), runShop ([] :: rest) st = st) ∧
    (∀ (pass : List CardEnv) (rest : List (List CardEnv)) (st : ShopState), pass ≠ [] →
      (runPass pass st).allProcessed = true → runShop (pass :: rest) st = runPass pass st) ∧
    (∀ (pass : List CardEnv) (rest : List (List CardEnv)) (st : ShopState), pass ≠ [] →
      (runPass pass st).allProcessed = false →
      runShop (pass :: rest) st = runShop rest (runPass pass st)) ∧
    (∀ (pass : List CardEnv) (st : ShopState),
      (runPass pass st).allProcessed = true ↔ (runPass pass st).coupons = st.coupons) := by
  refine ⟨?_, ?_, ?_, ?_⟩
  · intro rest st; simp [runShop]
  · intro pass rest st hp hf; simp [runShop, hp, hf]
  · intro pass rest st hp hf; simp [runShop, hp, hf]
  · intro pass st
    constructor
    · intro h
      have := foldl_flag_true_coupons pass { st with allProcessed := true } h
      simpa using this
    · intro h
      by_contra hf
      have hf' : (runPass pass st).allProcessed = false := by
        cases hb : (runPass pass st).allProcessed with
        | false => rfl
        | true => exact absurd hb hf
      have hlen : st.coupons.length < (runPass pass st).coupons.length :=
        foldl_flag_false_len pass { st with allProcessed := true } rfl hf'
      rw [h] at hlen
      exact Nat.lt_irrefl _ hlen

/-- Witness for C3: a one-card pass that records nothing ends the loop. -/
theorem C3_shop_loop_exit_conditions_witness :
    runShop [[unverifiedCard]] initShopState = runPass [unverifiedCard] initShopState :=
  C3_shop_loop_exit_conditions.2.1 [unverifiedCard] [] initShopState (by simp) rfl

/-- C4: when the reveal click yields no new page within the bounded wait, the
card is abandoned with no record and no page action, and the pass simply
moves on to the remaining card indices. -/
theorem C4_popup_timeout_abandons_card :
    ∀ (e : CardEnv) (st : ShopState) (rest : List CardEnv),
      e.available = true → containsVerified e.cardText = true → e.popup = none →
      processCard e st = (st, .abandonedNoPopup, []) ∧
      (e :: rest).foldl runPassStep st = rest.foldl runPassStep st := by
  intro e st rest h1 h2 h3
  have hstep : processCard e st = (st, .abandonedNoPopup, []) := by
    simp [processCard, h1, h2, h3]
  refine ⟨hstep, ?_⟩
  rw [List.foldl_cons]
  have hs : runPassStep st e = st := by
    unfold runPassStep; rw [hstep]
  rw [hs]

/-- Witness for C4 at a concrete timed-out card. -/
theorem C4_popup_timeout_abandons_card_witness :
    processCard timeoutCard initShopState = (initShopState, .abandonedNoPopup, []) ∧
    ([timeoutCard] : List CardEnv).foldl runPassStep initShopState =
      ([] : List CardEnv).foldl runPassStep initShopState :=
  C4_popup_timeout_abandons_card timeoutCard initShopState [] rfl rfl rfl

/-- C5 counterexample: `detailFaultCard` raises during the popup detail
extraction (steps 4-5 of the reveal flow, `innerFault = atCode`, caught at
src/main.py:701), yet a record — with sentinel code, description and terms —
is still appended for it, contradicting the claim that an exception during
the popup steps never appends a record. -/
theorem C5_counterexample_inner_fault_still_records :
    (processCard detailFaultCard initShopState).1.coupons =
      [⟨"10% Off Everything", "No code found", "No description found",
        "No terms and conditions found", "No expiry date found",
        "https://coupon.example/reveal/1"⟩] ∧
    (processCard detailFaultCard initShopState).2.1 = .recorded := ⟨rfl, rfl⟩

/-- C5 as amended: an exception that escapes to the per-card handler (raised
while closing the repurposed shop page, or inside the duplicate branch)
aborts that card only — the handler resets the page and the pass continues
with the next card index — and appends nothing; an exception raised inside
the detail-extraction `try` is caught internally and the card still appends
its record (with sentinel defaults for the fields the fault skipped). -/
theorem C5_amended_fault_isolation :
    (∀ (e : CardEnv) (st : ShopState) (rest : List CardEnv),
      e.available = true → containsVerified e.cardText = true →
      (∃ pe, e.popup = some pe) → e.closeShopFault = true →
      processCard e st = (st, .aborted, [.handlerReset]) ∧
      (e :: rest).foldl runPassStep st = rest.foldl runPassStep st) ∧
    (∀ (e : CardEnv) (st : ShopState) (pe : PopupEnv) (rest : List CardEnv),
      e.available = true → containsVerified e.cardText = true → e.popup = some pe →
      e.closeShopFault = false → st.processed.contains pe.url = true →
      e.dupBranchFault = true →
      processCard e st = (st, .aborted, [.closedShopPage, .handlerReset]) ∧
      (e :: rest).foldl runPassStep st = rest.foldl runPassStep st) ∧
    (∀ (e : CardEnv) (st : ShopState) (pe : PopupEnv),
      e.available = true → containsVerified e.cardText = true → e.popup = some pe →
      e.closeShopFault = false → st.processed.contains pe.url = false →
      (processCard e st).1.coupons = st.coupons ++ [mkRecord e pe]) := by
  refine ⟨?_, ?_, ?_⟩
  · intro e st rest h1 h2 h3 h4
    obtain ⟨pe, hpe⟩ := h3
    have hstep : processCard e st = (st, .aborted, [.handlerReset]) := by
      simp [processCard, h1, h2, hpe, h4]
    refine ⟨hstep, ?_⟩
    rw [List.foldl_cons]
    have hs : runPassStep st e = st := by
      unfold runPassStep; rw [hstep]
    rw [hs]
  · intro e st pe rest h1 h2 h3 h4 h5 h6
    have hmem := (list_contains_iff _ _).mp h5
    have hstep : processCard e st = (st, .aborted, [.closedShopPage, .handlerReset]) := by
      simp [processCard, h1, h2, h3, h4, h6, hmem]
    refine ⟨hstep, ?_⟩
    rw [List.foldl_cons]
    have hs : runPassStep st e = st := by
      unfold runPassStep; rw [hstep]
    rw [hs]
  · intro e st pe h1 h2 h3 h4 h5
    have hnm : pe.url ∉ st.processed := fun hm => by
      have h2' := (list_contains_iff st.processed pe.url).mpr hm
      rw [h5] at h2'
      exact Bool.false_ne_true h2'
    cases hpf : e.postFault with
    | true => simp [processCard, h1, h2, h3, h4, hnm, hpf]
    | false => simp [processCard, h1, h2, h3, h4, hnm, hpf]

/-- Witness for the amended C5: the concrete escaping close fault. -/
theorem C5_amended_fault_isolation_witness :
    processCard closeFaultCard initShopState = (initShopState, .aborted, [.handlerReset]) ∧
    ([closeFaultCard] : List CardEnv).foldl runPassStep initShopState =
      ([] : List CardEnv).foldl runPassStep initShopState :=
  C5_amended_fault_isolation.1 closeFaultCard initShopState [] rfl rfl
    ⟨⟨"https://coupon.example/reveal/5", some "FIVE", [], [], .noFault⟩, rfl⟩ rfl

/-- C6 counterexample: for `descEqCodeCard` the only matching description
selector yields exactly the extracted code, so the recorded description
equals the code verbatim and is not the sentinel — contradicting the claim
that the final description never equals the code. -/
theorem C6_counterexample_description_equals_code :
    (processCard descEqCodeCard initShopState).1.coupons.map Coupon.description = ["SAVE10"] ∧
    (processCard descEqCodeCard initShopState).1.coupons.map Coupon.code = ["SAVE10"] ∧
    ("SAVE10" : String) ≠ "No description found" := ⟨rfl, rfl, by decide⟩

/-- C6 as amended: the first non-empty candidate differing from the code
wins when one exists, but every matching selector overwrites `description`,
so when no candidate qualifies the final description is the last matching
candidate's text — possibly empty or equal to the code — or the sentinel if
no selector matched; the record stores exactly this value. -/
theorem C6_amended_description_rule :
    (∀ (code : String) (slots : List (Option String)),
      pickDescription code "No description found" slots =
        (firstGoodDesc code slots).getD ((lastHit slots).getD "No description found")) ∧
    (∀ (e : CardEnv) (st : ShopState) (pe : PopupEnv),
      e.available = true → containsVerified e.cardText = true → e.popup = some pe →
      e.closeShopFault = false → st.processed.contains pe.url = false →
      pe.innerFault = .noFault →
      (processCard e st).1.coupons = st.coupons ++ [mkRecord e pe] ∧
      (mkRecord e pe).description =
        pickDescription (codeOf pe) "No description found" pe.descs) := by
  refine ⟨?_, ?_⟩
  · intro code slots
    exact pickDescription_characterisation code slots "No description found"
  · intro e st pe h1 h2 h3 h4 h5 h6
    have hnm : pe.url ∉ st.processed := fun hm => by
      have h2' := (list_contains_iff st.processed pe.url).mpr hm
      rw [h5] at h2'
      exact Bool.false_ne_true h2'
    constructor
    · cases hpf : e.postFault with
      | true => simp [processCard, h1, h2, h3, h4, hnm, hpf]
      | false => simp [processCard, h1, h2, h3, h4, hnm, hpf]
    · simp [mkRecord, detailResults, h6, descOf]

/-- Witness for the amended C6 at the concrete code-equal candidate. -/
theorem C6_amended_description_rule_witness :
    (processCard descEqCodeCard initShopState).1.coupons =
      initShopState.coupons ++
        [mkRecord descEqCodeCard
          ⟨"https://coupon.example/reveal/2", some "SAVE10", [some "SAVE10", none, none], [],
           .noFault⟩] ∧
    (mkRecord descEqCodeCard
      ⟨"https://coupon.example/reveal/2", some "SAVE10", [some "SAVE10", none, none], [],
       .noFault⟩).description =
      pickDescription
        (codeOf ⟨"https://coupon.example/reveal/2", some "SAVE10",
          [some "SAVE10", none, none], [], .noFault⟩)
        "No description found" [some "SAVE10", none, none] :=
  C6_amended_description_rule.2 descEqCodeCard initShopState
    ⟨"https://coupon.example/reveal/2", some "SAVE10", [some "SAVE10", none, none], [],
     .noFault⟩ rfl rfl rfl rfl rfl rfl

/-- C7: the catalog pager produces at most the configured maximum number of
shop entries, never records a shop name twice, halts when a full listing
pass offers no unseen name, and on a 5-name listing with max-shops = 2 it
produces exactly the first two entries. -/
theorem C7_pager_bounds :
    (∀ (L : Nat → List String) (maxShops : Nat), (catalogRun L maxShops).length ≤ maxShops) ∧
    (∀ (L : Nat → List String) (maxShops : Nat), (catalogRun L maxShops).Nodup) ∧
    (∀ (L : Nat → List String) (fuel : Nat) (entries : List String),
      (∀ n ∈ L entries.length, n ∈ entries) → catalogLoop L (fuel + 1) entries = entries) ∧
    catalogRun (fun _ => ["Acme", "Bravo", "Coop", "Delta", "Echo"]) 2 = ["Acme", "Bravo"] := by
  refine ⟨?_, ?_, ?_, ?_⟩
  · intro L m
    have := catalogLoop_length_le L m []
    simpa [catalogRun] using this
  · intro L m
    exact catalogLoop_nodup L m [] List.nodup_nil
  · intro L fuel entries h
    by_cases hl : L entries.length = []
    · simp [catalogLoop, hl]
    · have hf : (L entries.length).find? (fun x => !(entries.contains x)) = none := by
        rw [List.find?_eq_none]
        intro x hx
        simpa using h x hx
      simp only [catalogLoop]
      rw [if_neg hl, hf]
  · rfl

/-- Witness for C7: a listing pass offering only seen names halts the pager. -/
theorem C7_pager_bounds_witness :
    catalogLoop (fun _ => ["Acme"]) (0 + 1) ["Acme"] = ["Acme"] :=
  C7_pager_bounds.2.2.1 (fun _ => ["Acme"]) 0 ["Acme"] (by simp)

/-- C8: a card whose title element is absent or invisible still records,
with title equal to the `No title found` sentinel — which is not the empty
string — and the card attempt completes normally. -/
theorem C8_missing_title_sentinel :
    ∀ (e : CardEnv) (st : ShopState) (pe : PopupEnv),
      e.available = true → containsVerified e.cardText = true → e.titleText = none →
      e.popup = some pe → e.closeShopFault = false →
      st.processed.contains pe.url = false →
      (processCard e st).1.coupons = st.coupons ++ [mkRecord e pe] ∧
      (mkRecord e pe).title = "No title found" ∧ (mkRecord e pe).title ≠ "" ∧
      (e.postFault = false → (processCard e st).2.1 = .recorded) := by
  intro e st pe h1 h2 ht h3 h4 h5
  have hnm : pe.url ∉ st.processed := fun hm => by
    have h2' := (list_contains_iff st.processed pe.url).mpr hm
    rw [h5] at h2'
    exact Bool.false_ne_true h2'
  refine ⟨?_, ?_, ?_, ?_⟩
  · cases hpf : e.postFault with
    | true => simp [processCard, h1, h2, h3, h4, hnm, hpf]
    | false => simp [processCard, h1, h2, h3, h4, hnm, hpf]
  · simp [mkRecord, titleOf, ht]
  · simp [mkRecord, titleOf, ht]
  · intro hpf
    simp [processCard, h1, h2, h3, h4, hnm, hpf]

/-- Witness for C8 at the concrete title-less card. -/
theorem C8_missing_title_sentinel_witness :
    (processCard noTitleCard initShopState).1.coupons =
      initShopState.coupons ++
        [mkRecord noTitleCard
          ⟨"https://coupon.example/reveal/3", some "FREESHIP", [some "Free shipping"], [],
           .noFault⟩] ∧
    (mkRecord noTitleCard
      ⟨"https://coupon.example/reveal/3", some "FREESHIP", [some "Free shipping"], [],
       .noFault⟩).title = "No title found" ∧
    (mkRecord noTitleCard
      ⟨"https://coupon.example/reveal/3", some "FREESHIP", [some "Free shipping"], [],
       .noFault⟩).title ≠ "" ∧
    (noTitleCard.postFault = false → (processCard noTitleCard initShopState).2.1 = .recorded) :=
  C8_missing_title_sentinel noTitleCard initShopState
    ⟨"https://coupon.example/reveal/3", some "FREESHIP", [some "Free shipping"], [], .noFault⟩
    rfl rfl rfl rfl rfl rfl

/-- C9: during persistence, at most one upsert is attempted per distinct
`(shop id, lowercased cleaned code, lowercased cleaned title)` key; a second
coupon with the same code and title — even with a different origin URL — is
counted as a skipped duplicate and not upserted. -/
theorem C9_persistence_key_dedup :
    (∀ (shopId : Nat) (coupons : List RawCoupon),
      ((saveShopCoupons shopId coupons).upserts.map rowKey).Nodup) ∧
    saveShopCoupons 7
      [⟨"Save Big", "CODE10", "https://coupon.example/a"⟩,
       ⟨"Save Big", "CODE10", "https://coupon.example/b"⟩] =
      ⟨[(7, "code10", "save big")],
       [⟨7, "CODE10", "Save Big", "https://coupon.example/a"⟩], 1, 0⟩ := by
  constructor
  · intro shopId coupons
    have h := saveShopCoupons_inv shopId coupons
    rw [h.1]
    exact h.2
  · rfl

/-- C10 counterexample: `strptime` accepts the four-digit year `0099` and
the platform `strftime('%Y-%m-%d')` renders years below 1000 without zero
padding, so `clean_expiry_date` can return `99-12-31`, which is not of the
ISO `YYYY-MM-DD` shape. -/
theorem C10_counterexample_two_digit_year :
    clean_expiry_date "31/12/0099" = some "99-12-31" ∧ isIsoYmd "99-12-31" = false :=
  ⟨rfl, rfl⟩

/-- C10 as amended: `clean_expiry_date` is total and returns either `none`
— in particular on empty input, the `No expiry date found` sentinel, and any
unparseable text — or the `%Y-%m-%d` rendering (zero-padded month and day,
year as plain decimal, hence `YYYY-MM-DD` only for years ≥ 1000) of a
successful parse of the `Expiry`-stripped input by one of the eight fixed
formats. -/
theorem C10_amended_expiry_cleaning :
    (∀ s : String, clean_expiry_date s = none ∨
      ∃ f p, f ∈ date_formats ∧
        strptime f (String.mk (pyStripList (stripExpiryPrefix (pyStripList s.data)))) = some p ∧
        clean_expiry_date s = some (isoOfDate p)) ∧
    clean_expiry_date "" = none ∧
    clean_expiry_date "No expiry date found" = none ∧
    clean_expiry_date "soon" = none ∧
    clean_expiry_date "Expiry 31/12/2025" = some "2025-12-31" ∧
    date_formats.length = 8 := by
  refine ⟨?_, rfl, rfl, rfl, rfl, rfl⟩
  intro s
  unfold clean_expiry_date
  by_cases h0 : s = "" ∨ s = "No expiry date found"
  · simp [h0]
  · simp only [if_neg h0]
    by_cases hc : pyStripList (stripExpiryPrefix (pyStripList s.data)) = []
    · simp [hc]
    · simp only [if_neg hc]
      cases hfs : date_formats.findSome?
          (fun f => strptime f (String.mk (pyStripList (stripExpiryPrefix (pyStripList s.data))))) with
      | none => left; simp [hfs]
      | some p =>
        right
        obtain ⟨l₁, f, l₂, hsplit, hsp, -⟩ := List.findSome?_eq_some_iff.mp hfs
        refine ⟨f, p, ?_, hsp, by simp [hfs]⟩
        rw [hsplit]
        exact List.mem_append.mpr (Or.inr (List.mem_cons_self f l₂))

end Couponly
